import Mathlib

/-!
Verification of the "Family Would You Rather" backend (`src/main.py`).

The service is a thin REST layer over a Mongo-style document collection.
We embed the stored documents, the storage operations the handlers use
(`count_documents`, `insert_one`, `$sample`, `find_one_and_update` with
`$inc`, `find().sort().limit()`), and the five data-touching request
handlers as pure Lean functions.  Stateful handlers take the optional
database handle (`none` models an unconfigured `db`) and return both the
HTTP outcome and the resulting store.

Modelling choices:
* A document identifier (BSON ObjectId) is modelled as a `Nat`; the store
  assigns fresh identifiers from a counter.  `str(ObjectId)` is injective
  on ObjectIds, so the serialized `id` field is modelled by the identifier
  itself.  Parsing a client-supplied identifier string
  (`ObjectId(body.prompt_id)`) is modelled faithfully to BSON: exactly the
  24-character hexadecimal strings parse, to the encoded number.
* Documents are schemaless in Mongo, so the optional fields the serializer
  defaults (`category`, `created_by`, `a_count`, `b_count`) are `Option`s.
* `$sample {size: 1}` draws one random document; we model the randomness
  by an external seed `r : Nat` choosing the index `r % length`.
* `find().sort([("a_count",-1),("b_count",-1)])` sorts descending by
  `a_count`, then `b_count`; per BSON ordering a missing field sorts after
  all numbers in a descending sort.  `limit(n)` with `n = 0` means no
  limit, and a negative `n` caps at `|n|` (pymongo semantics).
-/

namespace WYR

/-- A stored document of the `prompt` collection.  Fields other than the
identifier are optional, matching the schemaless store (`doc.get`). -/
structure Doc where
  oid : Nat
  option_a : String
  option_b : String
  category : Option String
  created_by : Option String
  a_count : Option Int
  b_count : Option Int
deriving Repr, DecidableEq

/-- The public response shape (`PromptResponse`).  `id` is the abstract
identifier (see module comment). -/
structure PromptResponse where
  id : Nat
  option_a : String
  option_b : String
  category : String
  created_by : Option String
  a_count : Int
  b_count : Int
deriving Repr, DecidableEq

/-- Request body of `POST /api/prompts` (`PromptCreate`); `category`
defaults to "general", `created_by` to null, as in the pydantic model. -/
structure PromptCreate where
  option_a : String
  option_b : String
  category : String := "general"
  created_by : Option String := none
deriving Repr, DecidableEq

/-- The pydantic validation constraints on `PromptCreate`:
both options are 3 to 140 characters. -/
def PromptCreate.Valid (b : PromptCreate) : Prop :=
  3 ≤ b.option_a.length ∧ b.option_a.length ≤ 140 ∧
  3 ≤ b.option_b.length ∧ b.option_b.length ≤ 140

/-- Request body of `POST /api/votes` (`VoteRequest`). -/
structure VoteRequest where
  prompt_id : String
  option : String
deriving Repr, DecidableEq

/-- The pydantic pattern constraint on `VoteRequest.option`: `^(a|b)$`. -/
def VoteRequest.Valid (v : VoteRequest) : Prop :=
  v.option = "a" ∨ v.option = "b"

/-- An `HTTPException(status_code, detail)`. -/
structure HTTPException where
  status_code : Nat
  detail : String
deriving Repr, DecidableEq

/-- The `prompt` collection: its documents in insertion order, plus the
store's supply of fresh identifiers. -/
structure Store where
  docs : List Doc
  nextId : Nat
deriving Repr, DecidableEq

/-- Identifiers already present in the store are below the fresh counter,
so newly generated identifiers are distinct from all prior ones. -/
def Store.Fresh (s : Store) : Prop :=
  ∀ d ∈ s.docs, d.oid < s.nextId

/-- `insert_one`: the store generates a fresh identifier for the new
document and appends it; returns the generated identifier. -/
def Store.insert_one (s : Store) (mk : Nat → Doc) : Nat × Store :=
  (s.nextId, { docs := s.docs ++ [mk s.nextId], nextId := s.nextId + 1 })

/-- Value of a hexadecimal digit character, if it is one. -/
def hexVal? (c : Char) : Option Nat :=
  if '0' ≤ c ∧ c ≤ '9' then some (c.toNat - '0'.toNat)
  else if 'a' ≤ c ∧ c ≤ 'f' then some (c.toNat - 'a'.toNat + 10)
  else if 'A' ≤ c ∧ c ≤ 'F' then some (c.toNat - 'A'.toNat + 10)
  else none

/-- Read a hexadecimal string left to right; fails on a non-hex digit. -/
def readHex : List Char → Nat → Option Nat
  | [], acc => some acc
  | c :: cs, acc =>
    match hexVal? c with
    | some v => readHex cs (acc * 16 + v)
    | none => none

/-- `ObjectId(s)` for a string `s`: succeeds exactly on 24-character
hexadecimal strings (BSON ObjectId's text form), returning the abstract
identifier; any other string raises, modelled by `none`. -/
def objectIdOfString? (s : String) : Option Nat :=
  if s.length = 24 then readHex s.data 0 else none

/-- `_serialize`: map a stored document to the response shape, defaulting
`category` to "general", missing counts to 0, and passing `created_by`
through (`str(doc.get("_id"))` is modelled by the identifier itself). -/
def _serialize (d : Doc) : PromptResponse :=
  { id := d.oid
    option_a := d.option_a
    option_b := d.option_b
    category := d.category.getD "general"
    created_by := d.created_by
    a_count := d.a_count.getD 0
    b_count := d.b_count.getD 0 }

/-- `STARTER_PROMPTS`: the fixed list of six starter pairs. -/
def STARTER_PROMPTS : List (String × String) :=
  [("be able to fly for a day", "turn invisible for a day"),
   ("eat pancakes for dinner", "eat pizza for breakfast"),
   ("have a pet dinosaur", "have a pet dragon"),
   ("swim with dolphins", "camp under the stars"),
   ("build a giant pillow fort", "have a massive water balloon fight"),
   ("never do homework again", "never do chores again")]

/-- The document `_ensure_seeded` inserts for a starter pair, given the
identifier the store generates for it. -/
def seedDoc (p : String × String) (i : Nat) : Doc :=
  { oid := i, option_a := p.1, option_b := p.2, category := some "general",
    created_by := some "seed", a_count := some 0, b_count := some 0 }

/-- The seeding loop: insert one document per starter pair, in order. -/
def insertSeeds : List (String × String) → Store → Store
  | [], s => s
  | p :: ps, s => insertSeeds ps (s.insert_one (seedDoc p)).2

/-- `_ensure_seeded`: 500 if the database is not configured; otherwise
insert the starter prompts when `count_documents({}) == 0`, else no-op. -/
def ensure_seeded (odb : Option Store) : Except HTTPException Store :=
  match odb with
  | none => .error ⟨500, "Database not configured"⟩
  | some s =>
    if s.docs.length = 0 then .ok (insertSeeds STARTER_PROMPTS s) else .ok s

/-- `$sample {size: 1}`: one uniformly random document, or none when the
collection is empty; the randomness is the external seed `r`. -/
def sample_one (r : Nat) (l : List Doc) : Option Doc :=
  if h : l.length = 0 then none
  else some (l.get ⟨r % l.length, Nat.mod_lt _ (Nat.pos_of_ne_zero h)⟩)

/-- `GET /api/prompts/random`: seed if needed, sample one document,
404 when the collection is still empty, else serialize. -/
def get_random_prompt (r : Nat) (odb : Option Store) :
    Except HTTPException PromptResponse × Option Store :=
  match ensure_seeded odb with
  | .error e => (.error e, odb)
  | .ok s =>
    match sample_one r s.docs with
    | none => (.error ⟨404, "No prompts available"⟩, some s)
    | some d => (.ok (_serialize d), some s)

/-- `POST /api/prompts`: 500 if unconfigured; otherwise build the document
from the validated body with both counts 0, insert it, and serialize the
inserted document including its generated identifier. -/
def create_prompt (odb : Option Store) (body : PromptCreate) :
    Except HTTPException PromptResponse × Option Store :=
  match odb with
  | none => (.error ⟨500, "Database not configured"⟩, none)
  | some s =>
    let mk : Nat → Doc := fun i =>
      { oid := i, option_a := body.option_a, option_b := body.option_b,
        category := some body.category, created_by := body.created_by,
        a_count := some 0, b_count := some 0 }
    let r := s.insert_one mk
    (.ok (_serialize (mk r.1)), some r.2)

/-- `$inc` of 1 on a named field: a missing field is created as 1. -/
def incDoc (field : String) (d : Doc) : Doc :=
  if field = "a_count" then { d with a_count := some (d.a_count.getD 0 + 1) }
  else if field = "b_count" then { d with b_count := some (d.b_count.getD 0 + 1) }
  else d

/-- `find_one_and_update({_id: oid}, {$inc: {field: 1}},
return_document=AFTER)`: update the first document whose identifier
matches, returning the post-update document; `none` when no match. -/
def find_one_and_update_inc (oid : Nat) (field : String) :
    List Doc → Option Doc × List Doc
  | [] => (none, [])
  | d :: rest =>
    if d.oid = oid then (some (incDoc field d), incDoc field d :: rest)
    else
      let r := find_one_and_update_inc oid field rest
      (r.1, d :: r.2)

/-- `POST /api/votes`: 500 if unconfigured; 400 if `prompt_id` does not
parse as an ObjectId; atomically increment the count field selected by
`option` ("a" selects `a_count`, anything else `b_count`); 404 when no
document matches; else serialize the post-increment document. -/
def vote (odb : Option Store) (body : VoteRequest) :
    Except HTTPException PromptResponse × Option Store :=
  match odb with
  | none => (.error ⟨500, "Database not configured"⟩, none)
  | some s =>
    match objectIdOfString? body.prompt_id with
    | none => (.error ⟨400, "Invalid prompt_id"⟩, some s)
    | some oid =>
      let field := if body.option = "a" then "a_count" else "b_count"
      let r := find_one_and_update_inc oid field s.docs
      match r.1 with
      | none => (.error ⟨404, "Prompt not found"⟩, some s)
      | some updated => (.ok (_serialize updated), some { s with docs := r.2 })

/-- Descending BSON comparison on one optional count field: numbers sort
descending, and a missing field sorts after every number. -/
def cmpField (x y : Option Int) : Ordering :=
  match x, y with
  | some a, some b => if b < a then .lt else if b = a then .eq else .gt
  | some _, none => .lt
  | none, some _ => .gt
  | none, none => .eq

/-- `sort([("a_count", -1), ("b_count", -1)])`: document `d` may precede
`e` when `d` is no later in the descending (a_count, b_count) order. -/
def docLe (d e : Doc) : Bool :=
  match cmpField d.a_count e.a_count with
  | .lt => true
  | .gt => false
  | .eq => cmpField d.b_count e.b_count ≠ .gt

/-- Insert into a list sorted by `docLe`. -/
def insertDoc (d : Doc) : List Doc → List Doc
  | [] => [d]
  | e :: rest => if docLe d e then d :: e :: rest else e :: insertDoc d rest

/-- The store's sorted read: some ordering of the collection consistent
with the sort keys (Mongo fixes no order between equal keys). -/
def sortDocs : List Doc → List Doc
  | [] => []
  | d :: rest => insertDoc d (sortDocs rest)

/-- `cursor.limit(n)`: `0` means no limit; a negative `n` caps the result
at `|n|` documents (pymongo). -/
def mongoLimit (n : Int) (l : List Doc) : List Doc :=
  if n = 0 then l else l.take n.natAbs

/-- `GET /api/prompts/top?limit=N` (default 10): 500 if unconfigured; else
serialize the sorted collection truncated to `limit`. -/
def top_prompts (odb : Option Store) (limit : Int := 10) :
    Except HTTPException (List PromptResponse) :=
  match odb with
  | none => .error ⟨500, "Database not configured"⟩
  | some s => .ok ((mongoLimit limit (sortDocs s.docs)).map _serialize)

/-- Decidable equality of handler outcomes, for concrete evaluations. -/
instance {ε α : Type} [DecidableEq ε] [DecidableEq α] : DecidableEq (Except ε α) := fun a b =>
  match a, b with
  | .error x, .error y =>
    if h : x = y then .isTrue (by rw [h]) else .isFalse (by intro hc; cases hc; exact h rfl)
  | .error _, .ok _ => .isFalse (by intro hc; cases hc)
  | .ok _, .error _ => .isFalse (by intro hc; cases hc)
  | .ok x, .ok y =>
    if h : x = y then .isTrue (by rw [h]) else .isFalse (by intro hc; cases hc; exact h rfl)

/-- The documents `insertSeeds` builds: one per starter pair, with
consecutive identifiers starting at `n`. -/
def seedDocsFrom : Nat → List (String × String) → List Doc
  | _, [] => []
  | n, p :: ps => seedDoc p n :: seedDocsFrom (n + 1) ps

/-- The sort comparator as a relation on documents. -/
def DocLeR (d e : Doc) : Prop := docLe d e = true

/-- Counts are stored on every document — true of every document this
service ever inserts (creation, seeding and `$inc` all set both). -/
def CountsPresent (s : Store) : Prop :=
  ∀ d ∈ s.docs, d.a_count.isSome ∧ d.b_count.isSome

/-- A concrete stored prompt with counts (3, 5), for concrete instances. -/
def docA : Doc :=
  ⟨1, "swim with sharks", "hug a bear", some "general", some "u1", some 3, some 5⟩

/-- A second concrete stored prompt, with optional fields missing. -/
def docB : Doc :=
  ⟨2, "eat cake for lunch", "eat pie for lunch", none, none, some 3, some 9⟩

/-- A one-document store whose fresh-identifier counter is 2. -/
def storeA : Store := ⟨[docA], 2⟩

/-- A two-document store. -/
def storeAB : Store := ⟨[docA, docB], 3⟩

/-- The document a concrete creation inserts, for the round-trip check. -/
def createdDoc : Doc :=
  ⟨2, "play in the snow", "play in the rain", some "general", some "kid",
    some 0, some 0⟩

/-- The creation response for `createdDoc`. -/
def createdResp : PromptResponse :=
  ⟨2, "play in the snow", "play in the rain", "general", some "kid", 0, 0⟩

theorem insertSeeds_eq (ps : List (String × String)) :
    ∀ s : Store, insertSeeds ps s =
      ⟨s.docs ++ seedDocsFrom s.nextId ps, s.nextId + ps.length⟩ := by
  induction ps with
  | nil => intro s; simp [insertSeeds, seedDocsFrom]
  | cons p ps ih =>
    intro s
    rw [insertSeeds, ih]
    simp [Store.insert_one, seedDocsFrom]
    omega

theorem seedDocsFrom_length (ps : List (String × String)) :
    ∀ n, (seedDocsFrom n ps).length = ps.length := by
  induction ps with
  | nil => intro n; rfl
  | cons p ps ih => intro n; simp [seedDocsFrom, ih]

theorem seedDocsFrom_map (ps : List (String × String)) :
    ∀ n, (seedDocsFrom n ps).map (fun d => (d.option_a, d.option_b)) = ps := by
  induction ps with
  | nil => intro n; rfl
  | cons p ps ih => intro n; simp [seedDocsFrom, seedDoc, ih]

theorem seedDocsFrom_mem (ps : List (String × String)) :
    ∀ n, ∀ d ∈ seedDocsFrom n ps,
      d.category = some "general" ∧ d.created_by = some "seed" ∧
      d.a_count = some 0 ∧ d.b_count = some 0 ∧ (d.option_a, d.option_b) ∈ ps := by
  induction ps with
  | nil => intro n d hd; simp [seedDocsFrom] at hd
  | cons p ps ih =>
    intro n d hd
    rcases List.mem_cons.mp hd with h | h
    · subst h; simp [seedDoc]
    · have := ih (n + 1) d h
      exact ⟨this.1, this.2.1, this.2.2.1, this.2.2.2.1, List.mem_cons_of_mem _ this.2.2.2.2⟩

theorem fau_not_found (oid : Nat) (field : String) :
    ∀ l : List Doc, (∀ d ∈ l, d.oid ≠ oid) →
      find_one_and_update_inc oid field l = (none, l) := by
  intro l
  induction l with
  | nil => intro _; rfl
  | cons d rest ih =>
    intro h
    have hd : d.oid ≠ oid := h d (List.mem_cons_self d rest)
    have hrest := ih fun e he => h e (List.mem_cons_of_mem _ he)
    simp [find_one_and_update_inc, hd, hrest]

theorem fau_found (oid : Nat) (field : String) (pre : List Doc) :
    ∀ (d : Doc) (post : List Doc), (∀ e ∈ pre, e.oid ≠ oid) → d.oid = oid →
      find_one_and_update_inc oid field (pre ++ d :: post) =
        (some (incDoc field d), pre ++ incDoc field d :: post) := by
  induction pre with
  | nil => intro d post _ hd; simp [find_one_and_update_inc, hd]
  | cons e pre ih =>
    intro d post hpre hd
    have he : e.oid ≠ oid := hpre e (List.mem_cons_self e pre)
    have := ih d post (fun x hx => hpre x (List.mem_cons_of_mem _ hx)) hd
    simp [find_one_and_update_inc, he, this]

theorem fau_found_split (oid : Nat) (field : String) :
    ∀ (l : List Doc) (u : Doc) (l' : List Doc),
      find_one_and_update_inc oid field l = (some u, l') →
      ∃ pre d post, l = pre ++ d :: post ∧ (∀ e ∈ pre, e.oid ≠ oid) ∧
        d.oid = oid ∧ u = incDoc field d ∧ l' = pre ++ incDoc field d :: post := by
  intro l
  induction l with
  | nil => intro u l' h; simp [find_one_and_update_inc] at h
  | cons d rest ih =>
    intro u l' h
    by_cases hd : d.oid = oid
    · simp [find_one_and_update_inc, hd] at h
      exact ⟨[], d, rest, by simp, by simp, hd, h.1.symm, by simp [← h.2]⟩
    · simp [find_one_and_update_inc, hd] at h
      obtain ⟨h1, h2⟩ := h
      obtain ⟨pre, e, post, hl, hpre, he, hu, hl'⟩ :=
        ih u (find_one_and_update_inc oid field rest).2 (by rw [← h1])
      refine ⟨d :: pre, e, post, by simp [hl], ?_, he, hu, by simp [← h2, hl']⟩
      intro x hx
      rcases List.mem_cons.mp hx with hxd | hxp
      · subst hxd; exact hd
      · exact hpre x hxp

theorem docLe_total (d e : Doc) : docLe d e = true ∨ docLe e d = true := by
  unfold docLe cmpField
  rcases d.a_count with _ | a <;> rcases e.a_count with _ | b <;>
    rcases d.b_count with _ | c <;> rcases e.b_count with _ | f <;>
      simp <;> (try split_ifs) <;> (try simp_all) <;> (try simp) <;> omega

theorem chain'_insertDoc (d : Doc) :
    ∀ l : List Doc, List.Chain' DocLeR l → List.Chain' DocLeR (insertDoc d l) := by
  intro l
  induction l with
  | nil => intro _; simp [insertDoc]
  | cons e rest ih =>
    intro h
    by_cases hde : docLe d e = true
    · simp only [insertDoc, if_pos hde]
      exact List.chain'_cons.mpr ⟨hde, h⟩
    · simp only [insertDoc, if_neg hde]
      have hed : DocLeR e d := (docLe_total d e).resolve_left hde
      have hins := ih h.tail
      rcases rest with _ | ⟨f, rest'⟩
      · simpa [insertDoc] using hed
      · by_cases hdf : docLe d f = true
        · simp only [insertDoc, if_pos hdf] at hins ⊢
          exact List.chain'_cons.mpr ⟨hed, hins⟩
        · simp only [insertDoc, if_neg hdf] at hins ⊢
          exact List.chain'_cons.mpr ⟨(List.chain'_cons.mp h).1, hins⟩

theorem chain'_sortDocs (l : List Doc) : List.Chain' DocLeR (sortDocs l) := by
  induction l with
  | nil => simp [sortDocs]
  | cons d rest ih => exact chain'_insertDoc d (sortDocs rest) ih

theorem insertDoc_perm (d : Doc) (l : List Doc) : List.Perm (insertDoc d l) (d :: l) := by
  induction l with
  | nil => simp [insertDoc]
  | cons e rest ih =>
    by_cases hde : docLe d e = true
    · simp [insertDoc, hde]
    · simp only [insertDoc, if_neg hde]
      exact (ih.cons e).trans (List.Perm.swap d e rest)

theorem sortDocs_perm (l : List Doc) : List.Perm (sortDocs l) l := by
  induction l with
  | nil => rfl
  | cons d rest ih => exact (insertDoc_perm d (sortDocs rest)).trans (ih.cons d)

theorem chain'_imp_mem {α : Type} {R S : α → α → Prop} :
    ∀ {l : List α}, List.Chain' R l →
      (∀ a ∈ l, ∀ b ∈ l, R a b → S a b) → List.Chain' S l
  | [], _, _ => List.chain'_nil
  | [x], _, _ => List.chain'_singleton x
  | a :: b :: l, h, H => by
    rw [List.chain'_cons] at h ⊢
    refine ⟨H a (by simp) b (by simp) h.1, chain'_imp_mem h.2 ?_⟩
    intro x hx y hy hr
    exact H x (List.mem_cons_of_mem a hx) y (List.mem_cons_of_mem a hy) hr

theorem docLe_resp (d e : Doc) (hda : d.a_count.isSome) (hdb : d.b_count.isSome)
    (hea : e.a_count.isSome) (heb : e.b_count.isSome) (h : docLe d e = true) :
    (_serialize e).a_count ≤ (_serialize d).a_count ∧
    ((_serialize d).a_count = (_serialize e).a_count →
      (_serialize e).b_count ≤ (_serialize d).b_count) := by
  obtain ⟨a, ha⟩ := Option.isSome_iff_exists.mp hda
  obtain ⟨b, hb⟩ := Option.isSome_iff_exists.mp hdb
  obtain ⟨a', ha'⟩ := Option.isSome_iff_exists.mp hea
  obtain ⟨b', hb'⟩ := Option.isSome_iff_exists.mp heb
  unfold docLe cmpField at h
  simp only [_serialize, ha, hb, ha', hb', Option.getD_some]
  rw [ha, ha', hb, hb'] at h
  constructor
  · by_contra hlt
    push_neg at hlt
    simp [show ¬ (a' < a) by omega, show ¬ (a' = a) by omega] at h
  · intro heq
    simp only [heq] at *
    by_contra hlt
    push_neg at hlt
    split_ifs at h <;> ((try simp_all); (try omega))

/-- C1: on a store holding a prompt with identifier `oid` and counts
`(x, y)`, a vote for option "a" whose `prompt_id` parses to `oid` returns
the serialization of the post-increment document with counts `(x+1, y)`,
and a vote for option "b" one with counts `(x, y+1)`; the response is the
serialized result of the atomic `find_one_and_update` itself. -/
theorem C1_vote_increments_selected_count (s : Store) (body : VoteRequest)
    (oid : Nat) (pre post : List Doc) (d : Doc) (x y : Int)
    (hid : objectIdOfString? body.prompt_id = some oid)
    (hsplit : s.docs = pre ++ d :: post)
    (hpre : ∀ e ∈ pre, e.oid ≠ oid)
    (hd : d.oid = oid) (ha : d.a_count = some x) (hb : d.b_count = some y) :
    (body.option = "a" →
      (vote (some s) body).1 = .ok (_serialize (incDoc "a_count" d)) ∧
      (_serialize (incDoc "a_count" d)).a_count = x + 1 ∧
      (_serialize (incDoc "a_count" d)).b_count = y) ∧
    (body.option = "b" →
      (vote (some s) body).1 = .ok (_serialize (incDoc "b_count" d)) ∧
      (_serialize (incDoc "b_count" d)).a_count = x ∧
      (_serialize (incDoc "b_count" d)).b_count = y + 1) := by
  constructor
  · intro hopt
    have hfau := fau_found oid "a_count" pre d post hpre hd
    refine ⟨?_, ?_, ?_⟩
    · simp [vote, hid, hopt, hsplit, hfau]
    · simp [_serialize, incDoc, ha]
    · simp [_serialize, incDoc, hb]
  · intro hopt
    have hfau := fau_found oid "b_count" pre d post hpre hd
    refine ⟨?_, ?_, ?_⟩
    · simp [vote, hid, hopt, hsplit, hfau]
    · simp [_serialize, incDoc, ha]
    · simp [_serialize, incDoc, hb]

/-- Witness for C1 at a concrete store and request. -/
theorem C1_vote_increments_selected_count_witness :
    (vote (some storeA) ⟨"000000000000000000000001", "a"⟩).1 =
      .ok (_serialize (incDoc "a_count" docA)) ∧
    (_serialize (incDoc "a_count" docA)).a_count = 3 + 1 ∧
    (_serialize (incDoc "a_count" docA)).b_count = 5 :=
  (C1_vote_increments_selected_count storeA ⟨"000000000000000000000001", "a"⟩ 1
    [] [] docA 3 5 (by decide) rfl (by simp) rfl rfl rfl).1 rfl

/-- C2 counterexample: with unconfigured storage, a request whose
`prompt_id` does not parse as an ObjectId fails with status 500, not 400:
the claim's "never with 500" fails as stated. -/
theorem C2_counterexample :
    objectIdOfString? "not-a-valid-objectid" = none ∧
    vote none ⟨"not-a-valid-objectid", "a"⟩ =
      (.error ⟨500, "Database not configured"⟩, none) ∧
    (vote none ⟨"not-a-valid-objectid", "a"⟩).1 ≠
      .error ⟨400, "Invalid prompt_id"⟩ :=
  ⟨rfl, rfl, by decide⟩

/-- C2 (amended): under configured storage, every vote request whose
`prompt_id` does not parse as a valid store identifier fails with exactly
status 400 ("Invalid prompt_id") — never 404 or 500 — and leaves the
store unchanged. -/
theorem C2_invalid_id_rejected_400 (s : Store) (body : VoteRequest)
    (h : objectIdOfString? body.prompt_id = none) :
    vote (some s) body = (.error ⟨400, "Invalid prompt_id"⟩, some s) := by
  simp [vote, h]

/-- Witness for the amended C2 at a concrete store and request. -/
theorem C2_invalid_id_rejected_400_witness :
    objectIdOfString? "xyz" = none ∧
    vote (some storeA) ⟨"xyz", "a"⟩ =
      (.error ⟨400, "Invalid prompt_id"⟩, some storeA) :=
  ⟨rfl, C2_invalid_id_rejected_400 storeA ⟨"xyz", "a"⟩ rfl⟩

/-- C3: creating a prompt from a valid body on a configured, fresh store
returns zero counts and the freshly generated identifier of the inserted
record, distinct from all prior identifiers; the record is appended and
the identifier counter advances. -/
theorem C3_create_prompt_zero_counts_fresh_id (s : Store) (body : PromptCreate)
    (hf : s.Fresh) (_hv : body.Valid) :
    ∃ r s', create_prompt (some s) body = (.ok r, some s') ∧
      r.a_count = 0 ∧ r.b_count = 0 ∧ r.id = s.nextId ∧
      s'.docs = s.docs ++
        [⟨s.nextId, body.option_a, body.option_b, some body.category,
          body.created_by, some 0, some 0⟩] ∧
      s'.nextId = s.nextId + 1 ∧
      ∀ d ∈ s.docs, d.oid ≠ r.id := by
  refine ⟨_, _, rfl, rfl, rfl, rfl, rfl, rfl, ?_⟩
  intro d hd
  have := hf d hd
  simp only [_serialize, Store.insert_one]
  omega

/-- Witness for C3 at a concrete store and body. -/
theorem C3_create_prompt_zero_counts_fresh_id_witness :
    (3 ≤ ("have a pet dinosaur" : String).length ∧
      ("have a pet dinosaur" : String).length ≤ 140 ∧
      3 ≤ ("have a pet dragon" : String).length ∧
      ("have a pet dragon" : String).length ≤ 140) ∧
    ∃ r s',
      create_prompt (some storeA) ⟨"have a pet dinosaur", "have a pet dragon", "general", none⟩ =
        (.ok r, some s') ∧
      r.a_count = 0 ∧ r.b_count = 0 ∧ r.id = storeA.nextId ∧
      s'.docs = storeA.docs ++
        [⟨storeA.nextId, "have a pet dinosaur", "have a pet dragon", some "general",
          none, some 0, some 0⟩] ∧
      s'.nextId = storeA.nextId + 1 ∧
      ∀ d ∈ storeA.docs, d.oid ≠ r.id :=
  ⟨by decide,
    C3_create_prompt_zero_counts_fresh_id storeA
      ⟨"have a pet dinosaur", "have a pet dragon", "general", none⟩
      (by unfold Store.Fresh; decide) (by unfold PromptCreate.Valid; decide)⟩

/-- C10: the storage-configured check precedes identifier parsing: with
unconfigured storage every vote request — malformed identifier included —
fails with status 500 "Database not configured", and the 400 invalid-id
response can only arise under configured storage. -/
theorem C10_db_check_precedes_id_parse :
    (∀ body : VoteRequest,
      vote none body = (.error ⟨500, "Database not configured"⟩, none)) ∧
    (∀ (odb : Option Store) (body : VoteRequest),
      (vote odb body).1 = .error ⟨400, "Invalid prompt_id"⟩ → odb ≠ none) := by
  refine ⟨fun body => rfl, ?_⟩
  intro odb body h hnone
  subst hnone
  simp [vote] at h

/-- Witness for C10: a malformed identifier still yields 500 when storage
is unconfigured, and a concrete 400 arises only with a configured store. -/
theorem C10_db_check_precedes_id_parse_witness :
    vote none ⟨"zzz", "a"⟩ = (.error ⟨500, "Database not configured"⟩, none) ∧
    (vote (some storeA) ⟨"zzz", "a"⟩).1 = .error ⟨400, "Invalid prompt_id"⟩ ∧
    (some storeA ≠ (none : Option Store)) :=
  ⟨C10_db_check_precedes_id_parse.1 ⟨"zzz", "a"⟩, rfl,
    C10_db_check_precedes_id_parse.2 (some storeA) ⟨"zzz", "a"⟩ rfl⟩

/-- C4: with configured storage, `_ensure_seeded` on an empty collection
inserts exactly the six fixed starter pairs, in order, each with category
"general", creator "seed" and zero counts; on a non-empty collection it
inserts nothing. -/
theorem C4_ensure_seeded_inserts_starters_iff_empty (s : Store) :
    (s.docs.length = 0 →
      ∃ s', ensure_seeded (some s) = .ok s' ∧
        s'.docs.length = 6 ∧
        s'.docs.map (fun d => (d.option_a, d.option_b)) = STARTER_PROMPTS ∧
        ∀ d ∈ s'.docs, d.category = some "general" ∧ d.created_by = some "seed" ∧
          d.a_count = some 0 ∧ d.b_count = some 0) ∧
    (0 < s.docs.length → ensure_seeded (some s) = .ok s) := by
  constructor
  · intro h0
    have hnil : s.docs = [] := List.length_eq_zero.mp h0
    refine ⟨insertSeeds STARTER_PROMPTS s, by simp [ensure_seeded, h0], ?_, ?_, ?_⟩
    · rw [insertSeeds_eq]
      simp [hnil, seedDocsFrom_length, STARTER_PROMPTS]
    · rw [insertSeeds_eq]
      simp [hnil, seedDocsFrom_map]
    · rw [insertSeeds_eq]
      simp only [hnil, List.nil_append]
      intro d hd
      have h := seedDocsFrom_mem STARTER_PROMPTS s.nextId d hd
      exact ⟨h.1, h.2.1, h.2.2.1, h.2.2.2.1⟩
  · intro hpos
    have hne : ¬ s.docs.length = 0 := by omega
    simp [ensure_seeded, hne]

/-- Witness for C4: seeding a concrete empty store, and the no-op on a
concrete non-empty store. -/
theorem C4_ensure_seeded_inserts_starters_iff_empty_witness :
    (∃ s', ensure_seeded (some ⟨[], 0⟩) = .ok s' ∧
      s'.docs.length = 6 ∧
      s'.docs.map (fun d => (d.option_a, d.option_b)) = STARTER_PROMPTS ∧
      ∀ d ∈ s'.docs, d.category = some "general" ∧ d.created_by = some "seed" ∧
        d.a_count = some 0 ∧ d.b_count = some 0) ∧
    ensure_seeded (some storeA) = .ok storeA :=
  ⟨(C4_ensure_seeded_inserts_starters_iff_empty ⟨[], 0⟩).1 rfl,
    (C4_ensure_seeded_inserts_starters_iff_empty storeA).2 (by decide)⟩

theorem sample_one_mem (r : Nat) (l : List Doc) (h : ¬ l.length = 0) :
    ∃ d ∈ l, sample_one r l = some d := by
  refine ⟨l.get ⟨r % l.length, Nat.mod_lt _ (Nat.pos_of_ne_zero h)⟩,
    List.get_mem l _ _, ?_⟩
  simp [sample_one, h]

/-- C6: `GET /api/prompts/random` on an empty, never-seeded collection
(with configured storage) seeds first and then returns one of the six
fixed starter pairs; for every sampling outcome the result is a success,
so the 404 "no prompts available" branch is unreachable here. -/
theorem C6_random_on_empty_seeds_then_succeeds (r n : Nat) :
    ∃ resp st, get_random_prompt r (some ⟨[], n⟩) = (.ok resp, st) ∧
      (resp.option_a, resp.option_b) ∈ STARTER_PROMPTS ∧
      resp.category = "general" ∧ resp.created_by = some "seed" ∧
      resp.a_count = 0 ∧ resp.b_count = 0 := by
  have hseed : ensure_seeded (some ⟨[], n⟩) =
      .ok ⟨seedDocsFrom n STARTER_PROMPTS, n + 6⟩ := by
    show Except.ok (insertSeeds STARTER_PROMPTS ⟨[], n⟩) = _
    rw [insertSeeds_eq]
    simp [STARTER_PROMPTS, seedDocsFrom]
  have hlen : ¬ (seedDocsFrom n STARTER_PROMPTS).length = 0 := by
    rw [seedDocsFrom_length]
    simp [STARTER_PROMPTS]
  obtain ⟨d, hmem, hs⟩ := sample_one_mem r (seedDocsFrom n STARTER_PROMPTS) hlen
  have hprops := seedDocsFrom_mem STARTER_PROMPTS n d hmem
  refine ⟨_serialize d, some ⟨seedDocsFrom n STARTER_PROMPTS, n + 6⟩, ?_, ?_, ?_, ?_, ?_, ?_⟩
  · simp only [get_random_prompt, hseed, hs]
  · simpa [_serialize] using hprops.2.2.2.2
  · simp [_serialize, hprops.1]
  · simp [_serialize, hprops.2.1]
  · simp [_serialize, hprops.2.2.1]
  · simp [_serialize, hprops.2.2.2.1]

theorem mongoLimit_subset (n : Int) (l : List Doc) : mongoLimit n l ⊆ l := by
  unfold mongoLimit
  split
  · exact List.Subset.refl l
  · exact List.take_subset _ l

/-- C5 counterexample: on a one-document store, `limit = 0` returns one
record, more than the requested limit of zero, so "at most `limit`
records for every limit value" fails as stated. -/
theorem C5_counterexample :
    top_prompts (some storeA) 0 = .ok [_serialize docA] ∧
    ¬ (([_serialize docA] : List PromptResponse).length ≤ 0) :=
  ⟨by decide, by decide⟩

/-- C5 (amended): for every positive limit (the pymongo `limit(0)` case
means "no limit" and is excluded), TopPrompts returns at most `limit`
records, ordered by `a_count` descending with ties broken by `b_count`
descending, on a store whose documents all carry their count fields (as
every document this service inserts does). -/
theorem C5_top_prompts_sorted_limited (s : Store) (limit : Int)
    (hc : CountsPresent s) (hpos : 1 ≤ limit) :
    ∃ L, top_prompts (some s) limit = .ok L ∧
      (L.length : Int) ≤ limit ∧
      List.Chain' (fun r r' : PromptResponse =>
        r'.a_count ≤ r.a_count ∧
        (r.a_count = r'.a_count → r'.b_count ≤ r.b_count)) L := by
  have h0 : ¬ limit = 0 := by omega
  refine ⟨(mongoLimit limit (sortDocs s.docs)).map _serialize, rfl, ?_, ?_⟩
  · rw [List.length_map]
    unfold mongoLimit
    rw [if_neg h0, ← Int.natAbs_of_nonneg (by omega : (0:Int) ≤ limit)]
    exact_mod_cast Nat.le_of_lt_succ (Nat.lt_succ_of_le
      (le_trans (List.length_take_le _ _) (le_refl _)))
  · have hsorted := chain'_sortDocs s.docs
    have hmemS : ∀ a ∈ sortDocs s.docs, a.a_count.isSome ∧ a.b_count.isSome := by
      intro a ha
      exact hc a ((sortDocs_perm s.docs).mem_iff.mp ha)
    have hchain : List.Chain' (fun d e : Doc =>
        (_serialize e).a_count ≤ (_serialize d).a_count ∧
        ((_serialize d).a_count = (_serialize e).a_count →
          (_serialize e).b_count ≤ (_serialize d).b_count)) (sortDocs s.docs) := by
      refine chain'_imp_mem hsorted ?_
      intro a ha b hb hr
      exact docLe_resp a b (hmemS a ha).1 (hmemS a ha).2 (hmemS b hb).1 (hmemS b hb).2 hr
    have htake := hchain.take limit.natAbs
    have : mongoLimit limit (sortDocs s.docs) = (sortDocs s.docs).take limit.natAbs := by
      unfold mongoLimit
      rw [if_neg h0]
    rw [this]
    exact (List.chain'_map _serialize).mpr htake

/-- Witness for the amended C5 at a concrete store and limit. -/
theorem C5_top_prompts_sorted_limited_witness :
    ∃ L, top_prompts (some storeAB) 1 = .ok L ∧
      (L.length : Int) ≤ 1 ∧
      List.Chain' (fun r r' : PromptResponse =>
        r'.a_count ≤ r.a_count ∧
        (r.a_count = r'.a_count → r'.b_count ≤ r.b_count)) L :=
  C5_top_prompts_sorted_limited storeAB 1
    (by unfold CountsPresent; decide) (by decide)

/-- C9: `limit = 0` on the storage query means "no limit": TopPrompts
with limit 0 returns every stored prompt, so on a non-empty collection
the number of returned records exceeds the requested limit of zero. -/
theorem C9_top_prompts_limit_zero_returns_all (s : Store) (h : s.docs ≠ []) :
    ∃ L, top_prompts (some s) 0 = .ok L ∧
      L.length = s.docs.length ∧
      (∀ d ∈ s.docs, _serialize d ∈ L) ∧
      0 < L.length := by
  refine ⟨(sortDocs s.docs).map _serialize, ?_, ?_, ?_, ?_⟩
  · simp [top_prompts, mongoLimit]
  · simp [(sortDocs_perm s.docs).length_eq]
  · intro d hd
    exact List.mem_map_of_mem _ ((sortDocs_perm s.docs).mem_iff.mpr hd)
  · simp only [List.length_map, (sortDocs_perm s.docs).length_eq]
    exact List.length_pos.mpr h

/-- Witness for C9 at a concrete two-document store. -/
theorem C9_top_prompts_limit_zero_returns_all_witness :
    ∃ L, top_prompts (some storeAB) 0 = .ok L ∧
      L.length = storeAB.docs.length ∧
      (∀ d ∈ storeAB.docs, _serialize d ∈ L) ∧
      0 < L.length :=
  C9_top_prompts_limit_zero_returns_all storeAB (by decide)

/-- C7: an accepted vote changes exactly one document — the first match
on the parsed identifier — and on it exactly the count field selected by
the option, incrementing it by 1; identifier, both option texts,
category, creator and the other count are unchanged, every other stored
document is untouched, and the identifier counter does not move. -/
theorem C7_vote_frame (s s' : Store) (body : VoteRequest) (r : PromptResponse)
    (hval : body.Valid)
    (h : vote (some s) body = (.ok r, some s')) :
    ∃ pre d post field,
      (body.option = "a" → field = "a_count") ∧
      (body.option = "b" → field = "b_count") ∧
      s.docs = pre ++ d :: post ∧
      s'.docs = pre ++ incDoc field d :: post ∧
      s'.nextId = s.nextId ∧
      r = _serialize (incDoc field d) ∧
      (incDoc field d).oid = d.oid ∧
      (incDoc field d).option_a = d.option_a ∧
      (incDoc field d).option_b = d.option_b ∧
      (incDoc field d).category = d.category ∧
      (incDoc field d).created_by = d.created_by ∧
      (body.option = "a" →
        (incDoc field d).a_count = some (d.a_count.getD 0 + 1) ∧
        (incDoc field d).b_count = d.b_count) ∧
      (body.option = "b" →
        (incDoc field d).b_count = some (d.b_count.getD 0 + 1) ∧
        (incDoc field d).a_count = d.a_count) := by
  rcases hp : objectIdOfString? body.prompt_id with _ | oid
  · simp [vote, hp] at h
  · simp only [vote, hp] at h
    rcases hr : find_one_and_update_inc oid
        (if body.option = "a" then "a_count" else "b_count") s.docs with ⟨o, docs'⟩
    rw [hr] at h
    rcases o with _ | u
    · simp at h
    · simp only [Prod.mk.injEq, Except.ok.injEq, Option.some.injEq] at h
      obtain ⟨hru, hs'⟩ := h
      obtain ⟨pre, d, post, hsplit, hpre, hdoid, hu, hdocs'⟩ :=
        fau_found_split oid _ s.docs u docs' hr
      refine ⟨pre, d, post, if body.option = "a" then "a_count" else "b_count",
        ?_, ?_, hsplit, ?_, ?_, ?_, ?_, ?_, ?_, ?_, ?_, ?_, ?_⟩
      · intro ho; rw [ho]; simp
      · intro ho; rw [ho]; simp
      · rw [← hs', hdocs']
      · rw [← hs']
      · rw [hru.symm, hu]
      · rcases hval with ho | ho <;> rw [ho] <;> simp [incDoc]
      · rcases hval with ho | ho <;> rw [ho] <;> simp [incDoc]
      · rcases hval with ho | ho <;> rw [ho] <;> simp [incDoc]
      · rcases hval with ho | ho <;> rw [ho] <;> simp [incDoc]
      · rcases hval with ho | ho <;> rw [ho] <;> simp [incDoc]
      · intro ho; rw [ho]; simp [incDoc]
      · intro ho; rw [ho]; simp [incDoc]

/-- Witness for C7 at a concrete accepted vote. -/
theorem C7_vote_frame_witness :
    ∃ pre d post field,
      ((("b" : String) = "a") → field = "a_count") ∧
      ((("b" : String) = "b") → field = "b_count") ∧
      storeA.docs = pre ++ d :: post ∧
      ([{ docA with b_count := some 6 }] : List Doc) = pre ++ incDoc field d :: post ∧
      (2 : Nat) = storeA.nextId ∧
      _serialize { docA with b_count := some 6 } = _serialize (incDoc field d) ∧
      (incDoc field d).oid = d.oid ∧
      (incDoc field d).option_a = d.option_a ∧
      (incDoc field d).option_b = d.option_b ∧
      (incDoc field d).category = d.category ∧
      (incDoc field d).created_by = d.created_by ∧
      ((("b" : String) = "a") →
        (incDoc field d).a_count = some (d.a_count.getD 0 + 1) ∧
        (incDoc field d).b_count = d.b_count) ∧
      ((("b" : String) = "b") →
        (incDoc field d).b_count = some (d.b_count.getD 0 + 1) ∧
        (incDoc field d).a_count = d.a_count) :=
  C7_vote_frame storeA ⟨[{ docA with b_count := some 6 }], 2⟩
    ⟨"000000000000000000000001", "b"⟩ (_serialize { docA with b_count := some 6 })
    (Or.inr rfl) (by decide)

/-- C8: a record inserted via CreatePrompt on a fresh store and later
found in a TopPrompts listing under its identifier (no intervening
mutation) serializes to the same option_a, option_b, category and
created_by as the creation response. -/
theorem C8_roundtrip_fields (s : Store) (body : PromptCreate)
    (r r' : PromptResponse) (s' : Store) (limit : Int) (L : List PromptResponse)
    (hf : s.Fresh)
    (hc : create_prompt (some s) body = (.ok r, some s'))
    (ht : top_prompts (some s') limit = .ok L)
    (hm : r' ∈ L) (hid : r'.id = r.id) :
    r'.option_a = r.option_a ∧ r'.option_b = r.option_b ∧
    r'.category = r.category ∧ r'.created_by = r.created_by := by
  simp only [create_prompt, Store.insert_one, Prod.mk.injEq, Except.ok.injEq,
    Option.some.injEq] at hc
  obtain ⟨hr, hs'⟩ := hc
  simp only [top_prompts, Except.ok.injEq] at ht
  rw [← ht] at hm
  obtain ⟨d, hdmem, hdser⟩ := List.mem_map.mp hm
  have hdocs : d ∈ s'.docs :=
    (sortDocs_perm s'.docs).mem_iff.mp (mongoLimit_subset limit (sortDocs s'.docs) hdmem)
  rw [← hs'] at hdocs
  simp only [List.mem_append, List.mem_singleton] at hdocs
  have hdoid : d.oid = s.nextId := by
    have h1 : r'.id = d.oid := by rw [← hdser]; rfl
    have h2 : r.id = s.nextId := by rw [← hr]; rfl
    rw [h1, h2] at hid
    exact hid
  rcases hdocs with hin | heq
  · exact absurd hdoid (Nat.ne_of_lt (hf d hin))
  · subst heq
    rw [← hdser, ← hr]
    exact ⟨rfl, rfl, rfl, rfl⟩

/-- Witness for C8 at a concrete creation followed by a listing. -/
theorem C8_roundtrip_fields_witness :
    createdResp.option_a = createdResp.option_a ∧
    createdResp.option_b = createdResp.option_b ∧
    createdResp.category = createdResp.category ∧
    createdResp.created_by = createdResp.created_by :=
  C8_roundtrip_fields storeA
    ⟨"play in the snow", "play in the rain", "general", some "kid"⟩
    createdResp createdResp ⟨[docA, createdDoc], 3⟩ 10
    [_serialize docA, createdResp]
    (by unfold Store.Fresh; decide) (by decide) (by decide) (by decide) rfl

end WYR
